import Mathlib

/-!
Verification of the multi-agent PPO training core in `multi_trainer.py`.

The development shallowly embeds the three components of the file:
the trajectory postprocessor `compute_gae_for_sample_batch`, the loss
function `ppo_surrogate_loss`, and the adaptive KL controller
`KLCoeffMixin.update_kl`.  Machine floats are modelled by exact rationals,
numpy / torch tensors by (lists of) lists of rationals, and Python
exceptions (KeyError, IndexError) by `Except String`.  External
collaborators (the neural model, the action-distribution capability and
RLlib utilities that are not part of the repository) enter either as
function parameters or as definitions modelled from the specification.
-/

namespace MultiTrainer

/-- A 1-D tensor of floats. -/
abbrev Vec := List ℚ

/-- A 2-D tensor of floats, row major (time axis outermost). -/
abbrev Mat := List (List ℚ)

/-! ### Adaptive KL controller (`KLCoeffMixin`) -/

/-- State owned by `KLCoeffMixin.__init__`: the mutable coefficient and the
constant target. -/
structure KLCoeffMixin where
  kl_coeff : ℚ
  kl_target : ℚ
deriving DecidableEq

/-- `KLCoeffMixin.update_kl`: mutates `kl_coeff` based on the measured KL and
returns the current coefficient.  The returned pair is (new state, returned
value). -/
def update_kl (s : KLCoeffMixin) (sampled_kl : ℚ) : KLCoeffMixin × ℚ :=
  let t :=
    if sampled_kl > 2 * s.kl_target then { s with kl_coeff := s.kl_coeff * (3 / 2) }
    else if sampled_kl < (1 / 2) * s.kl_target then { s with kl_coeff := s.kl_coeff * (1 / 2) }
    else s
  (t, t.kl_coeff)

/-- Iterated controller updates (one call per training step). -/
def update_kl_iter (s : KLCoeffMixin) (ks : List ℚ) : KLCoeffMixin :=
  ks.foldl (fun st k => (update_kl st k).1) s

/-! ### Trajectory postprocessor (`compute_gae_for_sample_batch`) -/

/-- One entry of the `infos` column when it holds per-timestep dicts.  The
`rewards` field models the optional `"rewards"` key, whose value is a dict
from agent id to that agent's decomposed reward. -/
structure Info where
  rewards : Option (List (Nat × ℚ))
deriving DecidableEq

/-- The `infos` column of a sample batch: either a float32 numpy array (the
placeholder data the trajectory view API passes on the first call) or a list
of per-timestep info dicts. -/
inductive InfosCol where
  | floats : Vec → InfosCol
  | dicts : List Info → InfosCol
deriving DecidableEq

/-- The float32 array held by a placeholder `infos` column. -/
def InfosCol.asVec : InfosCol → Vec
  | .floats xs => xs
  | .dicts _ => []

/-- The columns of a trajectory segment (`SampleBatch`) read or written by
`compute_gae_for_sample_batch`.  `obs` stands for the per-timestep
observations, `state_out` for the recurrent model-state columns. -/
structure SampleBatch where
  infos : InfosCol
  rewards : Vec
  actions : Mat
  action_logp : Mat
  vf_preds : Mat
  dones : List Bool
  obs : Mat
  state_out : List Vec
deriving DecidableEq

/-- The policy data consumed by the postprocessor: the four config entries
and the external model's value estimate on the final timestep
(`policy._value` after `get_input_dict(sample_batch, index="last")`),
as a function of the final observation. -/
structure GaePolicy where
  gamma : ℚ
  lam : ℚ
  use_gae : Bool
  use_critic : Bool
  value_fn : Vec → Vec

/-- `delta[t] = reward[t] + gamma * V[t+1] - V[t]` with `V[T] = last_r`. -/
def deltas (rs vs : Vec) (last_r gamma : ℚ) : Vec :=
  match rs, vs with
  | r :: rtl, v :: vtl =>
      let vnext := match vtl with | [] => last_r | w :: _ => w
      (r + gamma * vnext - v) :: deltas rtl vtl last_r gamma
  | _, _ => []

/-- Backward discounted cumulative sum: `out[t] = xs[t] + g * out[t+1]`,
with `out[T] = 0`. -/
def discountCumsum (xs : Vec) (g : ℚ) : Vec :=
  match xs with
  | [] => []
  | x :: tl =>
      let rest := discountCumsum tl g
      (x + g * rest.headD 0) :: rest

/-- Discounted returns with bootstrap: `ret[t] = rs[t] + g * ret[t+1]`, with
`ret[T] = last_r`. -/
def discountedReturns (rs : Vec) (g last_r : ℚ) : Vec :=
  match rs with
  | [] => []
  | r :: tl =>
      let rest := discountedReturns tl g last_r
      (r + g * rest.headD last_r) :: rest

/-- Modelled from the spec: `compute_advantages` is imported from
`ray.rllib.evaluation.postprocessing` and is not part of this repository's
sources.  Following section 4.1 of the specification: with GAE, advantages
satisfy the recurrence `adv[t] = delta[t] + gamma * lambda * adv[t+1]` and
`value_target[t] = adv[t] + V[t]`; without GAE, the advantage is the
discounted return minus the baseline (or the raw return without a critic)
and the value target is the discounted return.  Returns (advantages,
value targets). -/
def compute_advantages (rewards vf_preds : Vec) (last_r gamma lam : ℚ)
    (use_gae use_critic : Bool) : Vec × Vec :=
  let vs := if use_critic then vf_preds else rewards.map (fun _ => 0)
  if use_gae then
    let adv := discountCumsum (deltas rewards vs last_r gamma) (gamma * lam)
    (adv, List.zipWith (fun a v => a + v) adv vs)
  else
    let ret := discountedReturns rewards gamma last_r
    (if use_critic then List.zipWith (fun r v => r - v) ret vs else ret, ret)

/-- `samplebatch_infos["rewards"]` extraction: `None` when the infos column
is the float32 placeholder; the list of per-timestep reward dicts when every
info dict carries the `"rewards"` key; a KeyError otherwise. -/
def infosRewards (ic : InfosCol) : Except String (Option (List Info)) :=
  match ic with
  | .floats _ => .ok none
  | .dicts ds =>
      if ds.all (fun d => d.rewards.isSome) then .ok (some ds)
      else .error "KeyError: rewards"

/-- `samplebatch_infos_rewards[i]`: agent `i`'s entry of each per-timestep
reward dict; KeyError as soon as one timestep lacks agent `i`. -/
def lookupRewards (ds : List Info) (i : Nat) : Except String Vec :=
  match ds with
  | [] => .ok []
  | d :: tl =>
      match (d.rewards.getD []).lookup i with
      | some r => (lookupRewards tl i).map (fun v => r :: v)
      | none => .error "KeyError: agent reward"

/-- Agent `i`'s reward column: `samplebatch_infos_rewards[i]` when the
decomposed rewards were extracted, and the raw `sample_batch[INFOS]` float
array otherwise (the code's fallback assigns the infos column itself, not
the REWARDS column). -/
def agentRewardCol (ir : Option (List Info)) (sb : SampleBatch) (i : Nat) :
    Except String Vec :=
  match ir with
  | some ds => lookupRewards ds i
  | none => .ok sb.infos.asVec

/-- numpy slicing `m[:, i:i+1]`: silently clips when column `i` is out of
range, yielding empty rows. -/
def matSliceCol (m : Mat) (i : Nat) : Mat :=
  m.map (fun row => (row.drop i).take 1)

/-- numpy indexing `m[:, i]`: IndexError when column `i` is out of range. -/
def matCol (m : Mat) (i : Nat) : Except String Vec :=
  match m with
  | [] => .ok []
  | row :: tl =>
      match row.get? i with
      | some x => (matCol tl i).map (fun v => x :: v)
      | none => .error "IndexError: column"

/-- The bootstrap value for agent `i` together with the number of extra
forward evaluations of the model performed to obtain it: `(0, 0)` when the
final DONES flag is true, and (slot `i` of the value estimate on the final
timestep, one evaluation) otherwise. -/
def bootstrapValue (p : GaePolicy) (sb : SampleBatch) (i : Nat) :
    Except String (ℚ × Nat) :=
  match sb.dones.getLast? with
  | none => .error "IndexError: dones"
  | some true => .ok (0, 0)
  | some false =>
      match sb.obs.getLast? with
      | none => .error "IndexError: obs"
      | some ob =>
          match (p.value_fn ob).get? i with
          | some v => .ok (v, 1)
          | none => .error "IndexError: value"

/-- The per-agent sub-batch produced inside the loop of
`compute_gae_for_sample_batch`: agent `i`'s reward column, sliced action
column, value-prediction slot, and the advantages / value targets computed
by `compute_advantages` with agent `i`'s bootstrap value.  `evals` counts
the extra forward model evaluations. -/
structure AgentBatch where
  rewards : Vec
  actions : Mat
  vf_preds : Vec
  advantages : Vec
  value_targets : Vec
  evals : Nat
deriving DecidableEq

/-- One iteration of the per-agent loop in `compute_gae_for_sample_batch`. -/
def agentBatch (p : GaePolicy) (sb : SampleBatch) (ir : Option (List Info))
    (i : Nat) : Except String AgentBatch := do
  let rew ← agentRewardCol ir sb i
  let acts := matSliceCol sb.actions i
  let vfp ← matCol sb.vf_preds i
  let lr ← bootstrapValue p sb i
  let av := compute_advantages rew vfp lr.1 p.gamma p.lam p.use_gae p.use_critic
  return ⟨rew, acts, vfp, av.1, av.2, lr.2⟩

/-- `np.stack([a, b, c], axis=-1)` for three 1-D arrays: requires equal
lengths and yields rows `[a[t], b[t], c[t]]`. -/
def stack3 (a b c : Vec) : Except String Mat :=
  if a.length = b.length ∧ b.length = c.length then
    .ok ((a.zip (b.zip c)).map (fun x => [x.1, x.2.1, x.2.2]))
  else .error "ValueError: stack"

/-- The postprocessed batch: REWARDS, VF_PREDS, ADVANTAGES and
VALUE_TARGETS are overwritten with the stacked per-agent columns, every
other column keeps its original value. -/
structure SampleBatchOut where
  infos : InfosCol
  rewards : Mat
  actions : Mat
  action_logp : Mat
  vf_preds : Mat
  advantages : Mat
  value_targets : Mat
  dones : List Bool
  obs : Mat
  state_out : List Vec
deriving DecidableEq

/-- `compute_gae_for_sample_batch`: per-agent sub-batches for the three
hard-coded agents, then the four stacked columns written back into the
original segment.  The returned number counts the extra forward model
evaluations performed for bootstrap values. -/
def compute_gae_for_sample_batch (p : GaePolicy) (sb : SampleBatch) :
    Except String (SampleBatchOut × Nat) := do
  let ir ← infosRewards sb.infos
  let a0 ← agentBatch p sb ir 0
  let a1 ← agentBatch p sb ir 1
  let a2 ← agentBatch p sb ir 2
  let rew ← stack3 a0.rewards a1.rewards a2.rewards
  let vfp ← stack3 a0.vf_preds a1.vf_preds a2.vf_preds
  let adv ← stack3 a0.advantages a1.advantages a2.advantages
  let vt ← stack3 a0.value_targets a1.value_targets a2.value_targets
  return ({ infos := sb.infos, rewards := rew, actions := sb.actions,
            action_logp := sb.action_logp, vf_preds := vfp,
            advantages := adv, value_targets := vt, dones := sb.dones,
            obs := sb.obs, state_out := sb.state_out },
          a0.evals + a1.evals + a2.evals)

/-- Whether a computation completed without raising. -/
def isOkE {α : Type} : Except String α → Bool
  | .ok _ => true
  | .error _ => false

/-- The error message of a failed computation, if any. -/
def errOf {α : Type} : Except String α → Option String
  | .ok _ => none
  | .error e => some e

/-- The REWARDS column of a postprocessing result (empty on error). -/
def rewardsOf (r : Except String (SampleBatchOut × Nat)) : Mat :=
  match r with
  | .ok x => x.1.rewards
  | .error _ => []

/-! ### Surrogate loss evaluator (`ppo_surrogate_loss`) -/

/-- `torch.clamp(x, lo, hi)`. -/
def clampQ (x lo hi : ℚ) : ℚ := min (max x lo) hi

/-- The per-timestep surrogate term of the loss:
`min(adv * r, adv * clamp(r, 1 - eps, 1 + eps))` where `r` is the
probability ratio and `eps` the configured clip parameter. -/
def surrogatePointwise (eps adv r : ℚ) : ℚ :=
  min (adv * r) (adv * clampQ r (1 - eps) (1 + eps))

/-- Torch indexing `m[:, i]` or `m[..., i]` on a 2-D tensor, as a total
function (the loss claims quantify over batches of consistent width). -/
def col (m : Mat) (i : Nat) : Vec := m.map (fun row => row.getD i 0)

/-- Elementwise combination of three equal-shape tensors. -/
def zipWith3 (f : ℚ → ℚ → ℚ → ℚ) : Vec → Vec → Vec → Vec
  | a :: ta, b :: tb, c :: tc => f a b c :: zipWith3 f ta tb tc
  | _, _, _ => []

/-- Elementwise combination of four equal-shape tensors. -/
def zipWith4 (f : ℚ → ℚ → ℚ → ℚ → ℚ) : Vec → Vec → Vec → Vec → Vec
  | a :: ta, b :: tb, c :: tc, d :: td => f a b c d :: zipWith4 f ta tb tc td
  | _, _, _, _ => []

/-- `sequence_mask(seq_lens, max_seq_len, time_major)` followed by
`reshape(mask, [-1])`: the flattened boolean mask over the time axis that
marks the valid (non-padding) positions of each variable-length sequence. -/
def seqMask (seq_lens : List Nat) (maxLen : Nat) (tm : Bool) : List Bool :=
  if tm then
    ((List.range maxLen).map (fun j => seq_lens.map (fun L => decide (j < L)))).flatten
  else
    (seq_lens.map (fun L => (List.range maxLen).map (fun j => decide (j < L)))).flatten

/-- `torch.sum(t[mask])`: the sum of the entries of `t` at positions where
the boolean mask is true. -/
def maskedSum (mask : List Bool) (t : Vec) : ℚ :=
  (((t.zip mask).filter (fun x => x.2)).map (fun x => x.1)).sum

/-- `num_valid = torch.sum(mask)`. -/
def countTrue (mask : List Bool) : Nat := mask.count true

/-- `reduce_mean_valid`: sum over masked positions divided by the number of
valid positions in the RNN case, unweighted mean (`torch.mean`) otherwise. -/
def reduceMeanValid (m : Option (List Bool)) (t : Vec) : ℚ :=
  match m with
  | some mask => maskedSum mask t / (countTrue mask : ℚ)
  | none => t.sum / (t.length : ℚ)

/-- The configuration entries read by `ppo_surrogate_loss` (`kl_coeff` and
`entropy_coeff` are the current policy attributes). -/
structure LossConfig where
  clip_param : ℚ
  vf_clip_param : ℚ
  vf_loss_coeff : ℚ
  kl_coeff : ℚ
  entropy_coeff : ℚ
  use_gae : Bool
deriving DecidableEq

/-- The train-batch columns read by `ppo_surrogate_loss` (rows indexed by
flattened position, columns by agent). -/
structure TrainBatch where
  seq_lens : List Nat
  action_logp : Mat
  advantages : Mat
  vf_preds : Mat
  value_targets : Mat
deriving DecidableEq

/-- The outputs of the external model and action-distribution capability on
the current batch: model logits and recurrent output state, the current
distribution's per-position per-agent log-probability of the batch actions,
entropy, KL against the previous distribution, and the model's value
function output. -/
structure ModelOut where
  logits : Mat
  state : List Vec
  time_major : Bool
  curr_logp : Mat
  curr_entropy : Mat
  action_kl : Mat
  value_fn_out : Mat
deriving DecidableEq

/-- The optional mask of `ppo_surrogate_loss`: built from the batch's
sequence lengths when the model returned non-empty recurrent state, absent
otherwise. -/
def lossMask (mo : ModelOut) (tb : TrainBatch) : Option (List Bool) :=
  if mo.state = [] then none
  else some (seqMask tb.seq_lens (mo.logits.length / tb.seq_lens.length) mo.time_major)

/-- The per-agent entry appended to `loss_data`. -/
structure AgentLoss where
  total_loss : ℚ
  mean_policy_loss : ℚ
  mean_vf_loss : ℚ
  mean_entropy : ℚ
deriving DecidableEq

/-- Agent `i`'s surrogate tensor.  The probability-ratio exponential
`torch.exp` is passed in as `ex` since the transcendental function is
external to exact rational arithmetic. -/
def agentSurrogate (ex : ℚ → ℚ) (cfg : LossConfig) (mo : ModelOut)
    (tb : TrainBatch) (i : Nat) : Vec :=
  let ratios := List.zipWith (fun a b => ex (a - b))
    (col mo.curr_logp i) (col tb.action_logp i)
  List.zipWith (fun adv r => surrogatePointwise cfg.clip_param adv r)
    (col tb.advantages i) ratios

/-- Agent `i`'s value-function loss tensor:
`max((vf_out - target)^2, (vf_clipped - target)^2)` with the clipped
prediction moved from the previous prediction by at most `vf_clip_param`. -/
def agentVfLossVec (cfg : LossConfig) (mo : ModelOut) (tb : TrainBatch)
    (i : Nat) : Vec :=
  let prev_vf := col tb.vf_preds i
  let vf_out := col mo.value_fn_out i
  let vt := col tb.value_targets i
  let vf_loss1 := List.zipWith (fun v t => (v - t) ^ 2) vf_out vt
  let vf_clipped := List.zipWith
    (fun pv v => pv + clampQ (v - pv) (-cfg.vf_clip_param) cfg.vf_clip_param)
    prev_vf vf_out
  let vf_loss2 := List.zipWith (fun v t => (v - t) ^ 2) vf_clipped vt
  List.zipWith max vf_loss1 vf_loss2

/-- One iteration of the per-agent loop of `ppo_surrogate_loss`. -/
def agentLoss (ex : ℚ → ℚ) (cfg : LossConfig) (mo : ModelOut) (tb : TrainBatch)
    (rmv : Vec → ℚ) (i : Nat) : AgentLoss :=
  let surr := agentSurrogate ex cfg mo tb i
  let ent := col mo.curr_entropy i
  let akl := col mo.action_kl i
  if cfg.use_gae then
    let vfl := agentVfLossVec cfg mo tb i
    { total_loss := rmv (zipWith4
        (fun s a v e => -s + cfg.kl_coeff * a + cfg.vf_loss_coeff * v -
          cfg.entropy_coeff * e) surr akl vfl ent)
      mean_policy_loss := rmv (surr.map (fun x => -x))
      mean_vf_loss := rmv vfl
      mean_entropy := rmv ent }
  else
    { total_loss := rmv (zipWith3
        (fun s a e => -s + cfg.kl_coeff * a - cfg.entropy_coeff * e) surr akl ent)
      mean_policy_loss := rmv (surr.map (fun x => -x))
      mean_vf_loss := 0
      mean_entropy := rmv ent }

/-- The scalar outputs stored on the policy object for the stats function,
together with `loss_data`. -/
structure LossOutput where
  per_agent : List AgentLoss
  total_loss : ℚ
  mean_policy_loss : ℚ
  mean_vf_loss : ℚ
  mean_entropy : ℚ
  mean_kl : ℚ
  vf_explained_var : ℚ
deriving DecidableEq

/-- `ppo_surrogate_loss`: the per-agent loop runs over the width of the
first VF_PREDS row; the total loss is the sum of the per-agent total
losses, the cross-agent diagnostics are unweighted means over agents,
`mean_kl` reduces the per-position sum of the KL tensor over the agent
axis, and explained variance is computed once on the full batch by the
external utility `ev`. -/
def ppo_surrogate_loss (ex : ℚ → ℚ) (ev : Mat → Mat → ℚ) (cfg : LossConfig)
    (mo : ModelOut) (tb : TrainBatch) : LossOutput :=
  let rmv := reduceMeanValid (lossMask mo tb)
  let nAgents := (tb.vf_preds.headD []).length
  let loss_data := (List.range nAgents).map (agentLoss ex cfg mo tb rmv)
  { per_agent := loss_data
    total_loss := (loss_data.map (fun o => o.total_loss)).sum
    mean_policy_loss := (loss_data.map (fun o => o.mean_policy_loss)).sum / (nAgents : ℚ)
    mean_vf_loss := (loss_data.map (fun o => o.mean_vf_loss)).sum / (nAgents : ℚ)
    mean_entropy := (loss_data.map (fun o => o.mean_entropy)).sum / (nAgents : ℚ)
    mean_kl := rmv (mo.action_kl.map (fun row => row.sum))
    vf_explained_var := ev tb.value_targets mo.value_fn_out }

/-! ### Concrete instances used in counterexamples and witnesses -/

/-- A concrete stand-in for `torch.exp` in witnesses. -/
def exId : ℚ → ℚ := fun q => q

/-- A concrete stand-in for `explained_variance` in witnesses. -/
def evZero : Mat → Mat → ℚ := fun _ _ => 0

/-- A concrete loss configuration with GAE enabled. -/
def cfgW : LossConfig := ⟨1 / 5, 10, 1, 1 / 5, 0, true⟩

/-- The same configuration with GAE disabled. -/
def cfgNoGae : LossConfig := ⟨1 / 5, 10, 1, 1 / 5, 0, false⟩

/-- Concrete model outputs with empty recurrent state and identical
per-agent columns. -/
def moW : ModelOut :=
  { logits := [[0]], state := [], time_major := false,
    curr_logp := [[2, 2, 2]], curr_entropy := [[1, 1, 1]],
    action_kl := [[0, 0, 0]], value_fn_out := [[3, 3, 3]] }

/-- Concrete model outputs with non-empty recurrent state. -/
def moM : ModelOut :=
  { logits := [[0]], state := [[0]], time_major := false,
    curr_logp := [[2, 2, 2]], curr_entropy := [[1, 1, 1]],
    action_kl := [[0, 0, 0]], value_fn_out := [[3, 3, 3]] }

/-- A concrete one-position train batch with identical per-agent columns. -/
def tbW : TrainBatch :=
  { seq_lens := [1], action_logp := [[2, 2, 2]], advantages := [[1, 1, 1]],
    vf_preds := [[3, 3, 3]], value_targets := [[4, 4, 4]] }

/-- A simple policy: `gamma = 1`, `lambda = 1`, GAE and critic enabled, the
model valuing every final observation as `[0, 0, 0]`. -/
def pId : GaePolicy := ⟨1, 1, true, true, fun _ => [0, 0, 0]⟩

/-- A one-timestep segment whose info dict lacks the `"rewards"` key. -/
def sbMalformed : SampleBatch :=
  { infos := .dicts [⟨none⟩], rewards := [1], actions := [[0, 0, 0]],
    action_logp := [[0, 0, 0]], vf_preds := [[1, 2, 3]], dones := [true],
    obs := [[0]], state_out := [] }

/-- A one-timestep segment with a float32 placeholder infos column `[5]`
that differs from its shared REWARDS column `[1]`. -/
def sbFallback : SampleBatch :=
  { infos := .floats [5], rewards := [1], actions := [[0, 0, 0]],
    action_logp := [[0, 0, 0]], vf_preds := [[1, 2, 3]], dones := [true],
    obs := [[0]], state_out := [] }

/-- The postprocessing result for `sbFallback` under `pId`. -/
def outFallback : SampleBatchOut :=
  { infos := .floats [5], rewards := [[5, 5, 5]], actions := [[0, 0, 0]],
    action_logp := [[0, 0, 0]], vf_preds := [[1, 2, 3]],
    advantages := [[4, 3, 2]], value_targets := [[5, 5, 5]],
    dones := [true], obs := [[0]], state_out := [] }

/-- A one-timestep segment whose action vector has width 2 while the
configured co-located agent count is 3 (`vf_preds` has width 3). -/
def sbShapeMismatch : SampleBatch :=
  { infos := .floats [0], rewards := [0], actions := [[4, 5]],
    action_logp := [[0, 0, 0]], vf_preds := [[1, 2, 3]], dones := [true],
    obs := [[6]], state_out := [] }

/-- The postprocessing result for `sbShapeMismatch` under `pId`: produced
without any error although agent 2's action column is empty. -/
def outMismatch : SampleBatchOut :=
  { infos := .floats [0], rewards := [[0, 0, 0]], actions := [[4, 5]],
    action_logp := [[0, 0, 0]], vf_preds := [[1, 2, 3]],
    advantages := [[-1, -2, -3]], value_targets := [[0, 0, 0]],
    dones := [true], obs := [[6]], state_out := [] }

/-! ### Helper lemmas -/

/-- Helper: every update multiplies the coefficient by `3/2`, `1/2` or `1`
and keeps the target. -/
lemma update_kl_mul (s : KLCoeffMixin) (k : ℚ) :
    ∃ m : ℚ, (m = 3 / 2 ∨ m = 1 / 2 ∨ m = 1) ∧
      (update_kl s k).1.kl_coeff = s.kl_coeff * m ∧
      (update_kl s k).1.kl_target = s.kl_target := by
  unfold update_kl
  split_ifs with h1 h2
  · exact ⟨3 / 2, Or.inl rfl, rfl, rfl⟩
  · exact ⟨1 / 2, Or.inr (Or.inl rfl), rfl, rfl⟩
  · exact ⟨1, Or.inr (Or.inr rfl), by simp, rfl⟩

/-- Helper: a zero coefficient is preserved by any number of updates. -/
lemma update_kl_iter_zero (ks : List ℚ) :
    ∀ s : KLCoeffMixin, s.kl_coeff = 0 → (update_kl_iter s ks).kl_coeff = 0 := by
  induction ks with
  | nil => intro s h; simpa [update_kl_iter] using h
  | cons a tl ih =>
      intro s h
      have hstep : update_kl_iter s (a :: tl) = update_kl_iter (update_kl s a).1 tl := by
        simp [update_kl_iter]
      obtain ⟨m, _, hm, _⟩ := update_kl_mul s a
      rw [hstep]
      exact ih _ (by rw [hm, h, zero_mul])

/-- Helper: `bind` of a successful Except computation. -/
lemma bindE_ok {α β : Type} (a : α) (f : α → Except String β) :
    (Except.ok a >>= f) = f a := rfl

/-- Helper: `bind` of a failed Except computation. -/
lemma bindE_err {α β : Type} (e : String) (f : α → Except String β) :
    ((Except.error e : Except String α) >>= f) = Except.error e := rfl

/-- Helper: inversion of one iteration of the per-agent loop. -/
lemma agentBatch_ok (p : GaePolicy) (sb : SampleBatch) (ir : Option (List Info))
    (i : Nat) (ab : AgentBatch) (hab : agentBatch p sb ir i = .ok ab) :
    ∃ rew vfp lr, agentRewardCol ir sb i = .ok rew ∧
      matCol sb.vf_preds i = .ok vfp ∧
      bootstrapValue p sb i = .ok lr ∧
      ab = ⟨rew, matSliceCol sb.actions i, vfp,
        (compute_advantages rew vfp lr.1 p.gamma p.lam p.use_gae p.use_critic).1,
        (compute_advantages rew vfp lr.1 p.gamma p.lam p.use_gae p.use_critic).2,
        lr.2⟩ := by
  unfold agentBatch at hab
  cases hr : agentRewardCol ir sb i with
  | error e => rw [hr, bindE_err] at hab; exact absurd hab (by simp)
  | ok rew =>
    rw [hr, bindE_ok] at hab
    cases hv : matCol sb.vf_preds i with
    | error e => rw [hv, bindE_err] at hab; exact absurd hab (by simp)
    | ok vfp =>
      rw [hv, bindE_ok] at hab
      cases hb : bootstrapValue p sb i with
      | error e => rw [hb, bindE_err] at hab; exact absurd hab (by simp)
      | ok lr =>
        rw [hb, bindE_ok] at hab
        refine ⟨rew, vfp, lr, rfl, rfl, rfl, ?_⟩
        simpa [pure, Except.pure] using hab.symm

/-- Helper: inversion of `compute_gae_for_sample_batch` on success. -/
lemma compute_gae_ok (p : GaePolicy) (sb : SampleBatch) (out : SampleBatchOut)
    (n : Nat) (h : compute_gae_for_sample_batch p sb = .ok (out, n)) :
    ∃ ir a0 a1 a2, infosRewards sb.infos = .ok ir ∧
      agentBatch p sb ir 0 = .ok a0 ∧ agentBatch p sb ir 1 = .ok a1 ∧
      agentBatch p sb ir 2 = .ok a2 ∧
      stack3 a0.rewards a1.rewards a2.rewards = .ok out.rewards ∧
      stack3 a0.vf_preds a1.vf_preds a2.vf_preds = .ok out.vf_preds ∧
      stack3 a0.advantages a1.advantages a2.advantages = .ok out.advantages ∧
      stack3 a0.value_targets a1.value_targets a2.value_targets = .ok out.value_targets ∧
      out.infos = sb.infos ∧ out.actions = sb.actions ∧
      out.action_logp = sb.action_logp ∧ out.dones = sb.dones ∧
      out.obs = sb.obs ∧ out.state_out = sb.state_out ∧
      n = a0.evals + a1.evals + a2.evals := by
  unfold compute_gae_for_sample_batch at h
  cases hir : infosRewards sb.infos with
  | error e => rw [hir, bindE_err] at h; exact absurd h (by simp)
  | ok ir =>
  rw [hir, bindE_ok] at h
  cases h0 : agentBatch p sb ir 0 with
  | error e => rw [h0, bindE_err] at h; exact absurd h (by simp)
  | ok a0 =>
  rw [h0, bindE_ok] at h
  cases h1 : agentBatch p sb ir 1 with
  | error e => rw [h1, bindE_err] at h; exact absurd h (by simp)
  | ok a1 =>
  rw [h1, bindE_ok] at h
  cases h2 : agentBatch p sb ir 2 with
  | error e => rw [h2, bindE_err] at h; exact absurd h (by simp)
  | ok a2 =>
  rw [h2, bindE_ok] at h
  cases hs0 : stack3 a0.rewards a1.rewards a2.rewards with
  | error e => rw [hs0, bindE_err] at h; exact absurd h (by simp)
  | ok rew =>
  rw [hs0, bindE_ok] at h
  cases hs1 : stack3 a0.vf_preds a1.vf_preds a2.vf_preds with
  | error e => rw [hs1, bindE_err] at h; exact absurd h (by simp)
  | ok vfp =>
  rw [hs1, bindE_ok] at h
  cases hs2 : stack3 a0.advantages a1.advantages a2.advantages with
  | error e => rw [hs2, bindE_err] at h; exact absurd h (by simp)
  | ok adv =>
  rw [hs2, bindE_ok] at h
  cases hs3 : stack3 a0.value_targets a1.value_targets a2.value_targets with
  | error e => rw [hs3, bindE_err] at h; exact absurd h (by simp)
  | ok vt =>
  rw [hs3, bindE_ok] at h
  simp only [pure, Except.pure, Except.ok.injEq, Prod.mk.injEq] at h
  obtain ⟨hout, hn⟩ := h
  subst hout
  exact ⟨ir, a0, a1, a2, rfl, h0, h1, h2, hs0, hs1, hs2, hs3,
    rfl, rfl, rfl, rfl, rfl, rfl, hn.symm⟩

/-- Helper: the bootstrap value at a true final DONES flag. -/
lemma bootstrapValue_done (p : GaePolicy) (sb : SampleBatch) (i : Nat)
    (h : sb.dones.getLast? = some true) :
    bootstrapValue p sb i = .ok (0, 0) := by
  unfold bootstrapValue
  rw [h]

/-- Helper: stacking three copies of one column. -/
lemma stack3_self (xs : Vec) :
    stack3 xs xs xs = .ok (xs.map (fun x => [x, x, x])) := by
  unfold stack3
  rw [if_pos ⟨rfl, rfl⟩]
  congr 1
  induction xs with
  | nil => rfl
  | cons a tl ih => simpa [List.zip] using ih

/-- Helper: the concrete run of the postprocessor on `sbFallback`. -/
lemma gae_eval_fallback :
    compute_gae_for_sample_batch pId sbFallback = .ok (outFallback, 0) := by
  have hir : infosRewards sbFallback.infos = .ok none := by
    simp [infosRewards, sbFallback]
  have h0 : agentBatch pId sbFallback none 0 = .ok ⟨[5], [[0]], [1], [4], [5], 0⟩ := by
    norm_num [agentBatch, agentRewardCol, InfosCol.asVec, matSliceCol, matCol,
      bootstrapValue, compute_advantages, deltas, discountCumsum,
      pId, sbFallback, bindE_ok, bindE_err, pure, Except.pure, Except.map]
  have h1 : agentBatch pId sbFallback none 1 = .ok ⟨[5], [[0]], [2], [3], [5], 0⟩ := by
    norm_num [agentBatch, agentRewardCol, InfosCol.asVec, matSliceCol, matCol,
      bootstrapValue, compute_advantages, deltas, discountCumsum,
      pId, sbFallback, bindE_ok, bindE_err, pure, Except.pure, Except.map]
  have h2 : agentBatch pId sbFallback none 2 = .ok ⟨[5], [[0]], [3], [2], [5], 0⟩ := by
    norm_num [agentBatch, agentRewardCol, InfosCol.asVec, matSliceCol, matCol,
      bootstrapValue, compute_advantages, deltas, discountCumsum,
      pId, sbFallback, bindE_ok, bindE_err, pure, Except.pure, Except.map]
  unfold compute_gae_for_sample_batch
  rw [hir, bindE_ok, h0, bindE_ok, h1, bindE_ok, h2, bindE_ok]
  norm_num [stack3, outFallback, sbFallback, pure, Except.pure, bindE_ok]

/-- Helper: the concrete run of the postprocessor on `sbMalformed`. -/
lemma gae_eval_malformed :
    compute_gae_for_sample_batch pId sbMalformed = .error "KeyError: rewards" := by
  have hir : infosRewards sbMalformed.infos = .error "KeyError: rewards" := by
    simp [infosRewards, sbMalformed]
  unfold compute_gae_for_sample_batch
  rw [hir, bindE_err]

/-- Helper: the concrete run of the postprocessor on `sbShapeMismatch`. -/
lemma gae_eval_mismatch :
    compute_gae_for_sample_batch pId sbShapeMismatch = .ok (outMismatch, 0) := by
  have hir : infosRewards sbShapeMismatch.infos = .ok none := by
    simp [infosRewards, sbShapeMismatch]
  have h0 : agentBatch pId sbShapeMismatch none 0 = .ok ⟨[0], [[4]], [1], [-1], [0], 0⟩ := by
    norm_num [agentBatch, agentRewardCol, InfosCol.asVec, matSliceCol, matCol,
      bootstrapValue, compute_advantages, deltas, discountCumsum,
      pId, sbShapeMismatch, bindE_ok, bindE_err, pure, Except.pure, Except.map]
  have h1 : agentBatch pId sbShapeMismatch none 1 = .ok ⟨[0], [[5]], [2], [-2], [0], 0⟩ := by
    norm_num [agentBatch, agentRewardCol, InfosCol.asVec, matSliceCol, matCol,
      bootstrapValue, compute_advantages, deltas, discountCumsum,
      pId, sbShapeMismatch, bindE_ok, bindE_err, pure, Except.pure, Except.map]
  have h2 : agentBatch pId sbShapeMismatch none 2 = .ok ⟨[0], [[]], [3], [-3], [0], 0⟩ := by
    norm_num [agentBatch, agentRewardCol, InfosCol.asVec, matSliceCol, matCol,
      bootstrapValue, compute_advantages, deltas, discountCumsum,
      pId, sbShapeMismatch, bindE_ok, bindE_err, pure, Except.pure, Except.map]
  unfold compute_gae_for_sample_batch
  rw [hir, bindE_ok, h0, bindE_ok, h1, bindE_ok, h2, bindE_ok]
  norm_num [stack3, outMismatch, sbShapeMismatch, pure, Except.pure, bindE_ok]

/-- Helper: `agentLoss` reads agent `i`'s data only through the eight
per-agent columns, so equal columns give equal per-agent losses. -/
lemma agentLoss_cols (ex : ℚ → ℚ) (cfg : LossConfig) (mo : ModelOut)
    (tb : TrainBatch) (rmv : Vec → ℚ) (i j : Nat)
    (hcl : col mo.curr_logp i = col mo.curr_logp j)
    (hal : col tb.action_logp i = col tb.action_logp j)
    (hadv : col tb.advantages i = col tb.advantages j)
    (hent : col mo.curr_entropy i = col mo.curr_entropy j)
    (hakl : col mo.action_kl i = col mo.action_kl j)
    (hvfp : col tb.vf_preds i = col tb.vf_preds j)
    (hvt : col tb.value_targets i = col tb.value_targets j)
    (hvo : col mo.value_fn_out i = col mo.value_fn_out j) :
    agentLoss ex cfg mo tb rmv i = agentLoss ex cfg mo tb rmv j := by
  unfold agentLoss agentSurrogate agentVfLossVec
  rw [hcl, hal, hadv, hent, hakl, hvfp, hvt, hvo]

/-- Helper: a map that is pointwise zero sums to zero. -/
lemma sum_map_eq_zero {α : Type} (l : List α) (f : α → ℚ)
    (h : ∀ a ∈ l, f a = 0) : (l.map f).sum = 0 := by
  induction l with
  | nil => rfl
  | cons a tl ih =>
      simp [h a (by simp), ih (fun x hx => h x (by simp [hx]))]

/-- Helper: for a positive advantage and nonnegative clip parameter the
surrogate term is `adv * min r (1 + eps)`. -/
lemma surrogatePointwise_eq (eps A r : ℚ) (heps : 0 ≤ eps) (hA : 0 < A) :
    surrogatePointwise eps A r = A * min r (1 + eps) := by
  unfold surrogatePointwise clampQ
  rcases le_total r (1 - eps) with h1 | h1
  · rw [max_eq_right h1, min_eq_left (by linarith : (1 : ℚ) - eps ≤ 1 + eps),
      min_eq_left (by nlinarith : A * r ≤ A * (1 - eps)),
      min_eq_left (by linarith : r ≤ 1 + eps)]
  · rw [max_eq_left h1]
    rcases le_total r (1 + eps) with h2 | h2
    · rw [min_eq_left h2, min_self]
    · rw [min_eq_right h2, min_eq_right (by nlinarith : A * (1 + eps) ≤ A * r)]

/-! ### Theorems for the KL controller claims -/

/-- C1 (counterexample): the claim asserts that `update_kl` strictly
increases `kl_coeff` whenever the measured KL exceeds `2 * kl_target`, for
every starting coefficient.  Starting from `kl_coeff = 0` with
`kl_target = 1/100` and measured KL `3/100`, the first branch is taken but
the coefficient stays exactly `0`, so it does not strictly increase. -/
theorem update_kl_zero_coeff_not_strict :
    ((3 : ℚ) / 100 > 2 * (1 / 100)) ∧
    (update_kl ⟨0, 1 / 100⟩ (3 / 100)).1.kl_coeff = 0 ∧
    ¬ (0 : ℚ) < (update_kl ⟨0, 1 / 100⟩ (3 / 100)).1.kl_coeff := by
  refine ⟨by norm_num, by norm_num [update_kl], by norm_num [update_kl]⟩

/-- C1 (amended): `update_kl` multiplies `kl_coeff` by `3/2` when the
measured KL is strictly above `2 * kl_target`, by `1/2` when it is not above
`2 * kl_target` but strictly below `kl_target / 2`, and leaves it unchanged
otherwise; the returned value is the updated coefficient.  When the starting
coefficient is strictly positive, the first case strictly increases it and
the second strictly decreases it. -/
theorem update_kl_amended (s : KLCoeffMixin) (k : ℚ) :
    ((update_kl s k).2 = (update_kl s k).1.kl_coeff) ∧
    (k > 2 * s.kl_target → (update_kl s k).1.kl_coeff = s.kl_coeff * (3 / 2)) ∧
    (¬ k > 2 * s.kl_target → k < (1 / 2) * s.kl_target →
      (update_kl s k).1.kl_coeff = s.kl_coeff * (1 / 2)) ∧
    (¬ k > 2 * s.kl_target → ¬ k < (1 / 2) * s.kl_target →
      (update_kl s k).1.kl_coeff = s.kl_coeff) ∧
    (0 < s.kl_coeff → k > 2 * s.kl_target →
      s.kl_coeff < (update_kl s k).1.kl_coeff) ∧
    (0 < s.kl_coeff → ¬ k > 2 * s.kl_target → k < (1 / 2) * s.kl_target →
      (update_kl s k).1.kl_coeff < s.kl_coeff) := by
  unfold update_kl
  split_ifs with h1 h2
  · refine ⟨rfl, fun _ => rfl, fun hn _ => absurd h1 hn, fun hn _ => absurd h1 hn,
      fun hc _ => ?_, fun _ hn _ => absurd h1 hn⟩
    show s.kl_coeff < s.kl_coeff * (3 / 2)
    nlinarith
  · refine ⟨rfl, fun hg => absurd hg h1, fun _ _ => rfl, fun _ hn => absurd h2 hn,
      fun _ hg => absurd hg h1, fun hc _ _ => ?_⟩
    show s.kl_coeff * (1 / 2) < s.kl_coeff
    nlinarith
  · exact ⟨rfl, fun hg => absurd hg h1, fun _ hl => absurd hl h2, fun _ _ => rfl,
      fun _ hg => absurd hg h1, fun _ _ hl => absurd hl h2⟩

/-- C1 (witness): starting from coefficient `1` and target `1/100`, a
measured KL of `3/100` exceeds `2 * kl_target`, so the coefficient becomes
`3/2`, a strict increase. -/
theorem update_kl_amended_witness :
    (update_kl ⟨1, 1 / 100⟩ (3 / 100)).1.kl_coeff = 1 * (3 / 2) ∧
    (1 : ℚ) < (update_kl ⟨1, 1 / 100⟩ (3 / 100)).1.kl_coeff := by
  have h := update_kl_amended ⟨1, 1 / 100⟩ (3 / 100)
  exact ⟨h.2.1 (by norm_num), h.2.2.2.2.1 (by norm_num) (by norm_num)⟩

/-- C10: every call to `update_kl` leaves `kl_target` unchanged and
multiplies `kl_coeff` by one of `3/2`, `1/2` or `1`; hence the sign of
`kl_coeff` is invariant, and a coefficient equal to `0` stays exactly `0`
under every subsequent sequence of calls. -/
theorem update_kl_invariants (s : KLCoeffMixin) (k : ℚ) :
    ((update_kl s k).1.kl_target = s.kl_target) ∧
    ((update_kl s k).1.kl_coeff = s.kl_coeff * (3 / 2) ∨
     (update_kl s k).1.kl_coeff = s.kl_coeff * (1 / 2) ∨
     (update_kl s k).1.kl_coeff = s.kl_coeff) ∧
    (0 < s.kl_coeff → 0 < (update_kl s k).1.kl_coeff) ∧
    (s.kl_coeff < 0 → (update_kl s k).1.kl_coeff < 0) ∧
    (s.kl_coeff = 0 → (update_kl s k).1.kl_coeff = 0) ∧
    (∀ ks : List ℚ, s.kl_coeff = 0 → (update_kl_iter s ks).kl_coeff = 0) := by
  obtain ⟨m, hm, hcoeff, htgt⟩ := update_kl_mul s k
  have hmpos : 0 < m := by rcases hm with h | h | h <;> rw [h] <;> norm_num
  refine ⟨htgt, ?_, ?_, ?_, ?_, ?_⟩
  · rcases hm with h | h | h <;> rw [hcoeff, h]
    · exact Or.inl rfl
    · exact Or.inr (Or.inl rfl)
    · exact Or.inr (Or.inr (mul_one _))
  · intro hc; rw [hcoeff]; exact mul_pos hc hmpos
  · intro hc; rw [hcoeff]; exact mul_neg_of_neg_of_pos hc hmpos
  · intro hc; rw [hcoeff, hc, zero_mul]
  · intro ks hc; exact update_kl_iter_zero ks s hc

/-- C10 (witness): a concrete call with coefficient `1`, target `1/100`,
measured KL `3/100`: the target is unchanged and the coefficient stays
positive; and a zero coefficient stays `0` through three further calls. -/
theorem update_kl_invariants_witness :
    (update_kl ⟨1, 1 / 100⟩ (3 / 100)).1.kl_target = 1 / 100 ∧
    (0 : ℚ) < (update_kl ⟨1, 1 / 100⟩ (3 / 100)).1.kl_coeff ∧
    (update_kl_iter ⟨0, 1 / 100⟩ [3 / 100, 3 / 1000, 1 / 100]).kl_coeff = 0 := by
  have h := update_kl_invariants ⟨1, 1 / 100⟩ (3 / 100)
  have h0 := update_kl_invariants ⟨0, 1 / 100⟩ (3 / 100)
  exact ⟨h.1, h.2.2.1 (by norm_num), h0.2.2.2.2.2 [3 / 100, 3 / 1000, 1 / 100] rfl⟩

/-! ### Theorems for the trajectory postprocessor claims -/

/-- C2 (counterexample): the claim says malformed or missing decomposed
reward info never raises and that the fallback uses the shared reward
sequence.  Both parts fail on the code: a segment whose info dicts lack the
`"rewards"` key raises a KeyError, and a segment with a float32 placeholder
infos column `[5]` completes but with every agent's reward column equal to
the infos column `[5]`, not the shared REWARDS column `[1]`. -/
theorem gae_fallback_cex :
    errOf (compute_gae_for_sample_batch pId sbMalformed) = some "KeyError: rewards" ∧
    isOkE (compute_gae_for_sample_batch pId sbFallback) = true ∧
    rewardsOf (compute_gae_for_sample_batch pId sbFallback) = [[5, 5, 5]] ∧
    sbFallback.rewards = [1] := by
  refine ⟨?_, ?_, ?_, rfl⟩
  · rw [gae_eval_malformed]; rfl
  · rw [gae_eval_fallback]; rfl
  · rw [gae_eval_fallback]; rfl

/-- C2 (amended): when the infos column is the float32 placeholder (missing
decomposed rewards) the postprocessor does not raise on account of the
infos and uses the infos column itself — not the shared REWARDS column — as
every agent's reward column; when the infos column holds dicts and any dict
lacks the `"rewards"` key, the postprocessor raises a KeyError. -/
theorem gae_fallback_amended (p : GaePolicy) (sb : SampleBatch) :
    (∀ xs out n, sb.infos = .floats xs →
      compute_gae_for_sample_batch p sb = .ok (out, n) →
      out.rewards = xs.map (fun x => [x, x, x])) ∧
    (∀ ds d, sb.infos = .dicts ds → d ∈ ds → d.rewards = none →
      compute_gae_for_sample_batch p sb = .error "KeyError: rewards") := by
  constructor
  · intro xs out n hinf h
    obtain ⟨ir, a0, a1, a2, hir, h0, h1, h2, hs0, _⟩ := compute_gae_ok p sb out n h
    have hirn : ir = none := by
      rw [hinf] at hir
      simpa [infosRewards] using hir.symm
    subst hirn
    have hcol : agentRewardCol none sb 0 = .ok xs ∧ agentRewardCol none sb 1 = .ok xs ∧
        agentRewardCol none sb 2 = .ok xs := by
      simp [agentRewardCol, hinf, InfosCol.asVec]
    obtain ⟨r0, v0, lr0, hr0, _, _, hab0⟩ := agentBatch_ok p sb none 0 a0 h0
    obtain ⟨r1, v1, lr1, hr1, _, _, hab1⟩ := agentBatch_ok p sb none 1 a1 h1
    obtain ⟨r2, v2, lr2, hr2, _, _, hab2⟩ := agentBatch_ok p sb none 2 a2 h2
    have e0 : a0.rewards = xs := by
      rw [hcol.1] at hr0
      cases hr0
      rw [hab0]
    have e1 : a1.rewards = xs := by
      rw [hcol.2.1] at hr1
      cases hr1
      rw [hab1]
    have e2 : a2.rewards = xs := by
      rw [hcol.2.2] at hr2
      cases hr2
      rw [hab2]
    rw [e0, e1, e2, stack3_self] at hs0
    exact (Except.ok.injEq _ _).mp hs0 |>.symm
  · intro ds d hinf hd hr
    cases hall : ds.all (fun x => x.rewards.isSome) with
    | true =>
        have := List.all_eq_true.mp hall d hd
        rw [hr] at this
        exact absurd this (by simp)
    | false =>
        have hir : infosRewards sb.infos = .error "KeyError: rewards" := by
          rw [hinf]
          simp [infosRewards, hall]
        unfold compute_gae_for_sample_batch
        rw [hir, bindE_err]

/-- C2 (witness of the amended claim): on the concrete fallback segment the
postprocessor succeeds and every agent's reward column is the infos column
`[5]`; on the concrete malformed segment it raises the KeyError. -/
theorem gae_fallback_amended_witness :
    outFallback.rewards = ([5] : Vec).map (fun x => [x, x, x]) ∧
    compute_gae_for_sample_batch pId sbMalformed = .error "KeyError: rewards" := by
  have h := gae_fallback_amended pId sbFallback
  have hm := gae_fallback_amended pId sbMalformed
  exact ⟨h.1 [5] outFallback 0 rfl gae_eval_fallback,
    hm.2 [⟨none⟩] ⟨none⟩ rfl (by simp) rfl⟩

/-- C3: when the final DONES flag is true the bootstrap value is exactly
`0` for every agent and the whole postprocessing run performs no extra
forward model evaluation; when it is false, agent `i`'s bootstrap value is
slot `i` of the value estimate obtained from one extra forward evaluation
of the model on the final timestep's observation. -/
theorem gae_bootstrap_value (p : GaePolicy) (sb : SampleBatch) (i : Nat) :
    (sb.dones.getLast? = some true →
      bootstrapValue p sb i = .ok (0, 0) ∧
      (∀ out n, compute_gae_for_sample_batch p sb = .ok (out, n) → n = 0)) ∧
    (∀ ob v, sb.dones.getLast? = some false → sb.obs.getLast? = some ob →
      (p.value_fn ob).get? i = some v →
      bootstrapValue p sb i = .ok (v, 1)) := by
  constructor
  · intro hd
    refine ⟨bootstrapValue_done p sb i hd, ?_⟩
    intro out n h
    obtain ⟨ir, a0, a1, a2, _, h0, h1, h2, _, _, _, _, _, _, _, _, _, _, hn⟩ :=
      compute_gae_ok p sb out n h
    obtain ⟨r0, v0, lr0, _, _, hb0, hab0⟩ := agentBatch_ok p sb ir 0 a0 h0
    obtain ⟨r1, v1, lr1, _, _, hb1, hab1⟩ := agentBatch_ok p sb ir 1 a1 h1
    obtain ⟨r2, v2, lr2, _, _, hb2, hab2⟩ := agentBatch_ok p sb ir 2 a2 h2
    have e0 : a0.evals = 0 := by
      rw [bootstrapValue_done p sb 0 hd] at hb0
      cases hb0
      rw [hab0]
    have e1 : a1.evals = 0 := by
      rw [bootstrapValue_done p sb 1 hd] at hb1
      cases hb1
      rw [hab1]
    have e2 : a2.evals = 0 := by
      rw [bootstrapValue_done p sb 2 hd] at hb2
      cases hb2
      rw [hab2]
    rw [hn, e0, e1, e2]
  · intro ob v hd hob hv
    have hv2 : (p.value_fn ob)[i]? = some v := by
      rw [← List.get?_eq_getElem?]; exact hv
    simp [bootstrapValue, hd, hob, hv2]

/-- C3 (witness): on the concrete fallback segment (final DONES flag true)
the bootstrap value for agent 0 is `(0, 0)` and the concrete run performs
`0` extra forward evaluations. -/
theorem gae_bootstrap_value_witness :
    bootstrapValue pId sbFallback 0 = .ok (0, 0) ∧ (0 : Nat) = 0 := by
  have h := (gae_bootstrap_value pId sbFallback 0).1 rfl
  exact ⟨h.1, h.2 outFallback 0 gae_eval_fallback⟩

/-- C5 (code_bug evaluation): on a segment whose action vector has width 2
while the configured agent count is 3, the postprocessor does not fail
fast: numpy slicing silently yields an empty action column for agent 2 and
the whole run completes with a result. -/
theorem shape_mismatch_no_fail_fast :
    sbShapeMismatch.actions = [[4, 5]] ∧
    matSliceCol sbShapeMismatch.actions 2 = [[]] ∧
    isOkE (compute_gae_for_sample_batch pId sbShapeMismatch) = true := by
  refine ⟨rfl, rfl, ?_⟩
  rw [gae_eval_mismatch]
  rfl

/-- C9: every successful postprocessing run returns a batch whose REWARDS,
VF_PREDS, ADVANTAGES and VALUE_TARGETS columns are the three per-agent
sub-batch columns stacked along a new trailing axis, and whose remaining
columns (infos, observations, actions, log-probs, dones, model state) are
exactly those of the original segment. -/
theorem gae_stack_columns (p : GaePolicy) (sb : SampleBatch)
    (out : SampleBatchOut) (n : Nat)
    (h : compute_gae_for_sample_batch p sb = .ok (out, n)) :
    (out.infos = sb.infos ∧ out.actions = sb.actions ∧
     out.action_logp = sb.action_logp ∧ out.dones = sb.dones ∧
     out.obs = sb.obs ∧ out.state_out = sb.state_out) ∧
    (∃ ir a0 a1 a2, infosRewards sb.infos = .ok ir ∧
      agentBatch p sb ir 0 = .ok a0 ∧ agentBatch p sb ir 1 = .ok a1 ∧
      agentBatch p sb ir 2 = .ok a2 ∧
      stack3 a0.rewards a1.rewards a2.rewards = .ok out.rewards ∧
      stack3 a0.vf_preds a1.vf_preds a2.vf_preds = .ok out.vf_preds ∧
      stack3 a0.advantages a1.advantages a2.advantages = .ok out.advantages ∧
      stack3 a0.value_targets a1.value_targets a2.value_targets = .ok out.value_targets) := by
  obtain ⟨ir, a0, a1, a2, hir, h0, h1, h2, hs0, hs1, hs2, hs3,
    hi, ha, hl, hd, ho, hs, _⟩ := compute_gae_ok p sb out n h
  exact ⟨⟨hi, ha, hl, hd, ho, hs⟩,
    ir, a0, a1, a2, hir, h0, h1, h2, hs0, hs1, hs2, hs3⟩

/-- C9 (witness): the stacking statement instantiated on the concrete
fallback run. -/
theorem gae_stack_columns_witness :
    (outFallback.infos = sbFallback.infos ∧
     outFallback.actions = sbFallback.actions ∧
     outFallback.action_logp = sbFallback.action_logp ∧
     outFallback.dones = sbFallback.dones ∧
     outFallback.obs = sbFallback.obs ∧
     outFallback.state_out = sbFallback.state_out) ∧
    (∃ ir a0 a1 a2, infosRewards sbFallback.infos = .ok ir ∧
      agentBatch pId sbFallback ir 0 = .ok a0 ∧
      agentBatch pId sbFallback ir 1 = .ok a1 ∧
      agentBatch pId sbFallback ir 2 = .ok a2 ∧
      stack3 a0.rewards a1.rewards a2.rewards = .ok outFallback.rewards ∧
      stack3 a0.vf_preds a1.vf_preds a2.vf_preds = .ok outFallback.vf_preds ∧
      stack3 a0.advantages a1.advantages a2.advantages = .ok outFallback.advantages ∧
      stack3 a0.value_targets a1.value_targets a2.value_targets = .ok outFallback.value_targets) :=
  gae_stack_columns pId sbFallback outFallback 0 gae_eval_fallback

/-! ### Theorems for the surrogate loss claims -/

/-- C4: the total loss is the sum — not the average — of the per-agent
total losses, and when the three agents' per-agent columns are identical
the total loss equals exactly 3 times the single-agent loss. -/
theorem loss_sum_three_agents (ex : ℚ → ℚ) (ev : Mat → Mat → ℚ)
    (cfg : LossConfig) (mo : ModelOut) (tb : TrainBatch)
    (hn : (tb.vf_preds.headD []).length = 3)
    (hcl : col mo.curr_logp 1 = col mo.curr_logp 0 ∧
           col mo.curr_logp 2 = col mo.curr_logp 0)
    (hal : col tb.action_logp 1 = col tb.action_logp 0 ∧
           col tb.action_logp 2 = col tb.action_logp 0)
    (hadv : col tb.advantages 1 = col tb.advantages 0 ∧
            col tb.advantages 2 = col tb.advantages 0)
    (hent : col mo.curr_entropy 1 = col mo.curr_entropy 0 ∧
            col mo.curr_entropy 2 = col mo.curr_entropy 0)
    (hakl : col mo.action_kl 1 = col mo.action_kl 0 ∧
            col mo.action_kl 2 = col mo.action_kl 0)
    (hvfp : col tb.vf_preds 1 = col tb.vf_preds 0 ∧
            col tb.vf_preds 2 = col tb.vf_preds 0)
    (hvt : col tb.value_targets 1 = col tb.value_targets 0 ∧
           col tb.value_targets 2 = col tb.value_targets 0)
    (hvo : col mo.value_fn_out 1 = col mo.value_fn_out 0 ∧
           col mo.value_fn_out 2 = col mo.value_fn_out 0) :
    (ppo_surrogate_loss ex ev cfg mo tb).total_loss =
      ((ppo_surrogate_loss ex ev cfg mo tb).per_agent.map
        (fun o => o.total_loss)).sum ∧
    (ppo_surrogate_loss ex ev cfg mo tb).total_loss =
      3 * (agentLoss ex cfg mo tb (reduceMeanValid (lossMask mo tb)) 0).total_loss := by
  constructor
  · rfl
  · have e1 : agentLoss ex cfg mo tb (reduceMeanValid (lossMask mo tb)) 1 =
        agentLoss ex cfg mo tb (reduceMeanValid (lossMask mo tb)) 0 :=
      agentLoss_cols ex cfg mo tb _ 1 0 hcl.1 hal.1 hadv.1 hent.1 hakl.1
        hvfp.1 hvt.1 hvo.1
    have e2 : agentLoss ex cfg mo tb (reduceMeanValid (lossMask mo tb)) 2 =
        agentLoss ex cfg mo tb (reduceMeanValid (lossMask mo tb)) 0 :=
      agentLoss_cols ex cfg mo tb _ 2 0 hcl.2 hal.2 hadv.2 hent.2 hakl.2
        hvfp.2 hvt.2 hvo.2
    have hr3 : List.range 3 = [0, 1, 2] := rfl
    simp only [ppo_surrogate_loss, hn, hr3, List.map_cons, List.map_nil,
      List.sum_cons, List.sum_nil, e1, e2]
    ring

/-- C4 (witness): with identical per-agent columns in a concrete batch, the
total loss is 3 times the single-agent loss. -/
theorem loss_sum_three_agents_witness :
    (ppo_surrogate_loss exId evZero cfgW moW tbW).total_loss =
      3 * (agentLoss exId cfgW moW tbW (reduceMeanValid (lossMask moW tbW)) 0).total_loss :=
  (loss_sum_three_agents exId evZero cfgW moW tbW rfl ⟨rfl, rfl⟩ ⟨rfl, rfl⟩
    ⟨rfl, rfl⟩ ⟨rfl, rfl⟩ ⟨rfl, rfl⟩ ⟨rfl, rfl⟩ ⟨rfl, rfl⟩ ⟨rfl, rfl⟩).2

/-- C6: with non-empty recurrent output state every mean in the loss is the
mean-over-valid (masked sum divided by the count of valid positions, with
the mask built from the batch's sequence lengths over the flattened time
axis); with empty recurrent state every mean is the unweighted mean. -/
theorem loss_mean_over_valid (ex : ℚ → ℚ) (ev : Mat → Mat → ℚ)
    (cfg : LossConfig) (mo : ModelOut) (tb : TrainBatch) :
    (mo.state ≠ [] →
      lossMask mo tb = some (seqMask tb.seq_lens
        (mo.logits.length / tb.seq_lens.length) mo.time_major) ∧
      (ppo_surrogate_loss ex ev cfg mo tb).mean_kl =
        maskedSum (seqMask tb.seq_lens (mo.logits.length / tb.seq_lens.length)
            mo.time_major) (mo.action_kl.map (fun row => row.sum)) /
          (countTrue (seqMask tb.seq_lens (mo.logits.length / tb.seq_lens.length)
            mo.time_major) : ℚ) ∧
      (ppo_surrogate_loss ex ev cfg mo tb).per_agent =
        (List.range (tb.vf_preds.headD []).length).map
          (agentLoss ex cfg mo tb (fun t =>
            maskedSum (seqMask tb.seq_lens (mo.logits.length / tb.seq_lens.length)
                mo.time_major) t /
              (countTrue (seqMask tb.seq_lens (mo.logits.length / tb.seq_lens.length)
                mo.time_major) : ℚ)))) ∧
    (mo.state = [] →
      lossMask mo tb = none ∧
      (ppo_surrogate_loss ex ev cfg mo tb).mean_kl =
        (mo.action_kl.map (fun row => row.sum)).sum /
          ((mo.action_kl.map (fun row => row.sum)).length : ℚ) ∧
      (ppo_surrogate_loss ex ev cfg mo tb).per_agent =
        (List.range (tb.vf_preds.headD []).length).map
          (agentLoss ex cfg mo tb (fun t => t.sum / (t.length : ℚ)))) := by
  constructor
  · intro hst
    have hm : lossMask mo tb = some (seqMask tb.seq_lens
        (mo.logits.length / tb.seq_lens.length) mo.time_major) := by
      simp [lossMask, hst]
    have hfun : reduceMeanValid (lossMask mo tb) = (fun t =>
        maskedSum (seqMask tb.seq_lens (mo.logits.length / tb.seq_lens.length)
            mo.time_major) t /
          (countTrue (seqMask tb.seq_lens (mo.logits.length / tb.seq_lens.length)
            mo.time_major) : ℚ)) := by
      rw [hm]; funext t; rfl
    exact ⟨hm, by simp only [ppo_surrogate_loss, hfun],
      by simp only [ppo_surrogate_loss, hfun]⟩
  · intro hst
    have hm : lossMask mo tb = none := by simp [lossMask, hst]
    have hfun : reduceMeanValid (lossMask mo tb) =
        (fun t => t.sum / (t.length : ℚ)) := by
      rw [hm]; funext t; rfl
    exact ⟨hm, by simp only [ppo_surrogate_loss, hfun],
      by simp only [ppo_surrogate_loss, hfun]⟩

/-- C6 (witness): on a concrete batch with non-empty recurrent state the
reported mean KL is the masked sum over valid positions divided by their
count, and on the matching batch with empty state it is the unweighted
mean. -/
theorem loss_mean_over_valid_witness :
    (ppo_surrogate_loss exId evZero cfgW moM tbW).mean_kl =
      maskedSum (seqMask tbW.seq_lens (moM.logits.length / tbW.seq_lens.length)
          moM.time_major) (moM.action_kl.map (fun row => row.sum)) /
        (countTrue (seqMask tbW.seq_lens (moM.logits.length / tbW.seq_lens.length)
          moM.time_major) : ℚ) :=
  ((loss_mean_over_valid exId evZero cfgW moM tbW).1 (by simp [moM])).2.1

/-- C7: with `use_gae = false` the reported mean value loss is `0`, every
per-agent entry has zero value loss and a total loss containing only the
surrogate, KL-penalty and entropy terms, and the remaining diagnostic
scalars are still produced. -/
theorem loss_no_gae_vf_zero (ex : ℚ → ℚ) (ev : Mat → Mat → ℚ)
    (cfg : LossConfig) (mo : ModelOut) (tb : TrainBatch)
    (hgae : cfg.use_gae = false) :
    (ppo_surrogate_loss ex ev cfg mo tb).mean_vf_loss = 0 ∧
    (∀ al ∈ (ppo_surrogate_loss ex ev cfg mo tb).per_agent, al.mean_vf_loss = 0) ∧
    (ppo_surrogate_loss ex ev cfg mo tb).per_agent =
      (List.range (tb.vf_preds.headD []).length).map (fun i =>
        { total_loss := reduceMeanValid (lossMask mo tb)
            (zipWith3 (fun s a e => -s + cfg.kl_coeff * a - cfg.entropy_coeff * e)
              (agentSurrogate ex cfg mo tb i) (col mo.action_kl i)
              (col mo.curr_entropy i))
          mean_policy_loss := reduceMeanValid (lossMask mo tb)
            ((agentSurrogate ex cfg mo tb i).map (fun x => -x))
          mean_vf_loss := 0
          mean_entropy := reduceMeanValid (lossMask mo tb)
            (col mo.curr_entropy i) }) ∧
    (ppo_surrogate_loss ex ev cfg mo tb).mean_kl =
      reduceMeanValid (lossMask mo tb) (mo.action_kl.map (fun row => row.sum)) ∧
    (ppo_surrogate_loss ex ev cfg mo tb).vf_explained_var =
      ev tb.value_targets mo.value_fn_out := by
  have hag : ∀ (rmv : Vec → ℚ) (i : Nat), agentLoss ex cfg mo tb rmv i =
      { total_loss := rmv
          (zipWith3 (fun s a e => -s + cfg.kl_coeff * a - cfg.entropy_coeff * e)
            (agentSurrogate ex cfg mo tb i) (col mo.action_kl i)
            (col mo.curr_entropy i))
        mean_policy_loss := rmv ((agentSurrogate ex cfg mo tb i).map (fun x => -x))
        mean_vf_loss := 0
        mean_entropy := rmv (col mo.curr_entropy i) } := by
    intro rmv i
    unfold agentLoss
    rw [hgae]
    simp
  refine ⟨?_, ?_, ?_, rfl, rfl⟩
  · show ((((List.range (tb.vf_preds.headD []).length).map
        (agentLoss ex cfg mo tb (reduceMeanValid (lossMask mo tb)))).map
        (fun o => o.mean_vf_loss)).sum) / ((tb.vf_preds.headD []).length : ℚ) = 0
    rw [List.map_map,
      sum_map_eq_zero _ _ (fun i _ => by simp [Function.comp, hag]), zero_div]
  · intro al hal
    simp only [ppo_surrogate_loss] at hal
    obtain ⟨i, _, rfl⟩ := List.mem_map.mp hal
    rw [hag]
  · show (List.range (tb.vf_preds.headD []).length).map
        (agentLoss ex cfg mo tb (reduceMeanValid (lossMask mo tb))) = _
    rw [funext (hag (reduceMeanValid (lossMask mo tb)))]

/-- C7 (witness): on a concrete batch with GAE disabled, the mean value
loss is `0`. -/
theorem loss_no_gae_vf_zero_witness :
    (ppo_surrogate_loss exId evZero cfgNoGae moW tbW).mean_vf_loss = 0 :=
  (loss_no_gae_vf_zero exId evZero cfgNoGae moW tbW rfl).1

/-- C8 (counterexample): the claim says the per-timestep loss contribution
`-min(adv * r, adv * clip(r, 1 - eps, 1 + eps))` is non-decreasing in `r`
up to `1 + eps` for positive advantage.  With advantage `1`, `eps = 1/2`,
and `r` increasing from `1/2` to `1` (both at most `3/2`), the contribution
drops from `-1/2` to `-1`, so it is decreasing, not non-decreasing. -/
theorem surrogate_monotone_cex :
    (0 : ℚ) < 1 ∧ (1 : ℚ) / 2 ≤ 1 ∧ (1 : ℚ) ≤ 1 + 1 / 2 ∧
    ¬ (-surrogatePointwise (1 / 2) 1 (1 / 2) ≤ -surrogatePointwise (1 / 2) 1 1) := by
  norm_num [surrogatePointwise, clampQ, min_def, max_def]

/-- C8 (amended): for positive advantage and nonnegative clip parameter the
per-timestep loss contribution `-surrogatePointwise` is non-increasing as
the probability ratio increases up to `1 + eps`, and constant for all
ratios beyond `1 + eps`. -/
theorem surrogate_monotone_amended (eps A : ℚ) (heps : 0 ≤ eps) (hA : 0 < A) :
    (∀ r1 r2, r1 ≤ r2 → r2 ≤ 1 + eps →
      -surrogatePointwise eps A r2 ≤ -surrogatePointwise eps A r1) ∧
    (∀ r1 r2, 1 + eps ≤ r1 → 1 + eps ≤ r2 →
      -surrogatePointwise eps A r1 = -surrogatePointwise eps A r2) := by
  constructor
  · intro r1 r2 h12 h2
    rw [surrogatePointwise_eq eps A r1 heps hA, surrogatePointwise_eq eps A r2 heps hA]
    have hmin : min r1 (1 + eps) ≤ min r2 (1 + eps) := min_le_min h12 le_rfl
    have := mul_le_mul_of_nonneg_left hmin hA.le
    linarith
  · intro r1 r2 h1 h2
    rw [surrogatePointwise_eq eps A r1 heps hA, surrogatePointwise_eq eps A r2 heps hA,
      min_eq_right h1, min_eq_right h2]

/-- C8 (witness of the amended claim): with advantage `1` and `eps = 1/2`
the contribution at ratio `1` is at most the contribution at ratio `1/2`,
and the contributions at ratios `3/2` and `2` coincide. -/
theorem surrogate_monotone_amended_witness :
    -surrogatePointwise (1 / 2) 1 1 ≤ -surrogatePointwise (1 / 2) 1 (1 / 2) ∧
    -surrogatePointwise (1 / 2) 1 (3 / 2) = -surrogatePointwise (1 / 2) 1 2 := by
  have h := surrogate_monotone_amended (1 / 2) 1 (by norm_num) (by norm_num)
  exact ⟨h.1 (1 / 2) 1 (by norm_num) (by norm_num),
    h.2 (3 / 2) 2 (by norm_num) (by norm_num)⟩

end MultiTrainer
